import Mathlib

/-!
Shallow embedding of the clawteam job-execution orchestrator and tool-invocation
gate (src/internal/tools/engine.py, src/internal/tools/base.py,
src/internal/agent/runtime.py, and the data models in src/internal/model/).

Conventions of the embedding:
* Python dicts keyed by strings are association lists `List (String × α)`;
  `dictGet`/`dictSet` mirror `d.get(k)` / `d[k] = v`.
* `datetime.utcnow()` values are integers passed explicitly at each call site.
* Python exceptions are `Except String α`: a function that may raise returns
  `Except`; a raised error carries `str(e)`.
* `dict[str, Any]` parameter payloads are opaque to the engine; they are
  modelled as association lists of strings, which the gate only passes through.
* Python truthiness of optional strings and lists (`if not user_id`,
  `if response.tool_calls`) is modelled by the `pyTruthy*` helpers: `None` and
  empty values are falsy.
-/

/-- Python `d.get(k)` on a string-keyed dict. -/
def dictGet {α : Type} (m : List (String × α)) (k : String) : Option α :=
  match m with
  | [] => none
  | (k1, v) :: rest => if k1 = k then some v else dictGet rest k

/-- Python `d[k] = v` on a string-keyed dict (replaces an existing binding, else appends). -/
def dictSet {α : Type} (m : List (String × α)) (k : String) (v : α) :
    List (String × α) :=
  match m with
  | [] => [(k, v)]
  | (k1, v1) :: rest => if k1 = k then (k, v) :: rest else (k1, v1) :: dictSet rest k v

/-- Python truthiness of an optional string: `None` and `""` are falsy. -/
def pyTruthyStr (o : Option String) : Bool :=
  match o with
  | none => false
  | some s => !s.isEmpty

/-- Python truthiness of an optional list: `None` and `[]` are falsy. -/
def pyTruthyList {α : Type} (o : Option (List α)) : Bool :=
  match o with
  | none => false
  | some l => !l.isEmpty

/-- model/tool.py `ToolStatus` (engine-relevant values). -/
inductive ToolStatus where
  | pending
  | running
  | completed
  | failed
  | unauthorized
deriving DecidableEq

/-- Opaque tool parameter payload (`dict[str, Any]`); the gate never inspects it. -/
abbrev Params := List (String × String)

/-- model/tool.py `ToolDefinition` (fields read by the engine and runtime). -/
structure ToolDefinition where
  id : String
  name : String
  description : String := ""
  input_schema : Params := []
  requires_auth : Bool := false
  rate_limit : Option Nat := none
  rate_window : Int := 60
  is_active : Bool := true
deriving DecidableEq

/-- model/tool.py `ToolExecutionResult`. `output` is an opaque optional payload. -/
structure ToolExecutionResult where
  tool_id : String
  call_id : String
  status : ToolStatus
  output : Option String := none
  error : Option String := none
  started_at : Int
  completed_at : Int
deriving DecidableEq

/-- The execution-context dict passed to `execute_tool`.  The engine and the
runtime only ever read the keys below; absent keys are `none`. -/
structure Ctx where
  call_id : Option String := none
  user_id : Option String := none
  job_id : Option String := none
  agent_id : Option String := none
  chat_id : Option String := none
deriving DecidableEq

/-- tools/base.py `Tool`: a duck-typed handle with a stored definition, a
parameter check and an execute entry point.  Both `validate_parameters` and
`execute` are arbitrary Python code supplied by the tool implementation, so
each may raise (`Except.error`). -/
structure ToolImpl where
  definition : ToolDefinition
  validate_parameters : Params → Except String Bool
  execute : Params → Ctx → Except String ToolExecutionResult

/-- The engine's `_rate_limit_counters` (`defaultdict(list)`):
tool id ↦ recorded call timestamps. -/
abbrev RateCounters := List (String × List Int)

namespace ToolEngine

/-- engine.py `ToolEngine._check_permissions`: if the descriptor requires auth,
the context must carry a (truthy) `user_id`. -/
def check_permissions (tool : ToolImpl) (context : Ctx) : Bool :=
  if tool.definition.requires_auth then
    if !pyTruthyStr context.user_id then false else true
  else true

/-- engine.py `ToolEngine._check_rate_limit`: prune timestamps `≤ now - window`
(the source keeps only `ts > cutoff`), store the pruned list, then allow and
record `now` when the count is below the limit.  No configured limit allows
without recording.  Returns the decision and the updated counters. -/
def check_rate_limit (counters : RateCounters) (tool : ToolImpl) (now : Int) :
    Bool × RateCounters :=
  match tool.definition.rate_limit with
  | none => (true, counters)
  | some rate_limit =>
    let tool_id := tool.definition.id
    let window := tool.definition.rate_window
    let cutoff := now - window
    let ts := ((dictGet counters tool_id).getD []).filter (fun t => cutoff < t)
    if rate_limit ≤ ts.length then
      (false, dictSet counters tool_id ts)
    else
      (true, dictSet counters tool_id (ts ++ [now]))

/-- engine.py `ToolEngine.execute_tool`: ordered checks — existence,
authorization, rate limit, parameter validation — then dispatch.  Check
failures and any fault raised by `tool.execute` become a structured
`ToolExecutionResult`; a fault raised by `tool.validate_parameters` is not
caught by the source (its `try` block only wraps the dispatch), so it
propagates as `Except.error`.  Returns the outcome and the updated rate
counters. -/
def execute_tool (registry : List (String × ToolImpl)) (counters : RateCounters)
    (tool_id : String) (parameters : Params) (context : Ctx) (now : Int) :
    Except String ToolExecutionResult × RateCounters :=
  match dictGet registry tool_id with
  | none =>
    (Except.ok
      { tool_id := tool_id, call_id := context.call_id.getD "",
        status := ToolStatus.failed,
        error := some ("Tool not found: " ++ tool_id),
        started_at := now, completed_at := now }, counters)
  | some tool =>
    if !check_permissions tool context then
      (Except.ok
        { tool_id := tool_id, call_id := context.call_id.getD "",
          status := ToolStatus.unauthorized,
          error := some "Permission denied for tool execution",
          started_at := now, completed_at := now }, counters)
    else
      match check_rate_limit counters tool now with
      | (false, counters1) =>
        (Except.ok
          { tool_id := tool_id, call_id := context.call_id.getD "",
            status := ToolStatus.failed,
            error := some "Rate limit exceeded",
            started_at := now, completed_at := now }, counters1)
      | (true, counters1) =>
        match tool.validate_parameters parameters with
        | Except.error e => (Except.error e, counters1)
        | Except.ok valid =>
          if !valid then
            (Except.ok
              { tool_id := tool_id, call_id := context.call_id.getD "",
                status := ToolStatus.failed,
                error := some "Invalid parameters",
                started_at := now, completed_at := now }, counters1)
          else
            match tool.execute parameters context with
            | Except.ok r => (Except.ok r, counters1)
            | Except.error e =>
              (Except.ok
                { tool_id := tool_id, call_id := context.call_id.getD "",
                  status := ToolStatus.failed,
                  error := some e,
                  started_at := now, completed_at := now }, counters1)

end ToolEngine

/-! ### Data models used by the agent runtime (src/internal/model/) -/

/-- model/execution.py `JobStatus`. -/
inductive JobStatus where
  | pending
  | running
  | completed
  | failed
  | cancelled
deriving DecidableEq

/-- model/execution.py `ActionItem` (fields populated by the runtime; the
extraction sets only `description`, the rest keep their defaults). -/
structure ActionItem where
  description : String
  assignee : Option String := none
  priority : String := "medium"
deriving DecidableEq

/-- One entry of `ExecutionContext.recent_messages` (`dict` with optional
`role`/`content` keys). -/
structure RecentMsg where
  role : Option String := none
  content : Option String := none
deriving DecidableEq

/-- model/execution.py `ExecutionContext` (fields read by the runtime). -/
structure ExecutionContext where
  chat_id : String
  message_id : String := ""
  sender_id : String := ""
  message_content : String := ""
  recent_messages : List RecentMsg := []
deriving DecidableEq

/-- model/execution.py `AgentJob` (timestamps are explicit integers,
`none` meaning the Python `None` default). -/
structure AgentJob where
  job_id : String
  agent_id : String
  instruction : String
  context : ExecutionContext
  tools_allowed : List String := []
  timeout_seconds : Int := 30
  max_retries : Nat := 3
  retry_count : Nat := 0
  status : JobStatus := JobStatus.pending
  created_at : Int := 0
  started_at : Option Int := none
  completed_at : Option Int := none
deriving DecidableEq

/-- model/agent.py `AgentConfig` (generation parameters forwarded to the
backend; `temperature` is a rational stand-in for the Python float). -/
structure AgentConfig where
  model_name : String := "claude-3-5-sonnet-20241022"
  temperature : Rat := 7/10
  max_tokens : Nat := 2000
  timeout_seconds : Int := 30
deriving DecidableEq

/-- model/agent.py `Agent` (fields read by the runtime). -/
structure Agent where
  id : String
  name : String
  system_prompt : String
  config : AgentConfig := {}
deriving DecidableEq

/-- model/llm.py `MessageRole`. -/
inductive MessageRole where
  | system
  | user
  | assistant
  | tool
deriving DecidableEq

/-- model/llm.py `ChatMessage` (fields built by `_prepare_messages`). -/
structure ChatMessage where
  role : MessageRole
  content : String
deriving DecidableEq

/-- model/llm.py `ToolDefinition` (the reduced definition handed to the
backend: name, description, input schema). -/
structure LLMToolDefinition where
  name : String
  description : String
  input_schema : Params
deriving DecidableEq

/-- model/llm.py `ToolCall`: a capability call requested by the backend. -/
structure ToolCall where
  id : String
  name : String
  parameters : Params
deriving DecidableEq

/-- model/llm.py `Usage`. -/
structure Usage where
  input_tokens : Nat := 0
  output_tokens : Nat := 0
  total_tokens : Nat := 0
deriving DecidableEq

/-- model/llm.py `ChatResponse` (fields read by the runtime). -/
structure ChatResponse where
  id : String := ""
  content : String
  tool_calls : Option (List ToolCall) := none
  usage : Usage := {}
deriving DecidableEq

/-- model/execution.py `AgentResult` (fields populated by the runtime). -/
structure AgentResult where
  job_id : String
  agent_id : String
  status : JobStatus
  response : String := ""
  citations : List String := []
  action_items : List ActionItem := []
  error : Option String := none
  input_tokens : Nat := 0
  output_tokens : Nat := 0
  started_at : Option Int := none
  completed_at : Option Int := none
deriving DecidableEq

/-! ### Agent runtime (src/internal/agent/runtime.py) -/

/-- Python whitespace, as stripped by `str.strip()`. -/
def pyIsSpace (c : Char) : Bool :=
  c = ' ' || c = '\t' || c = '\n' || c = '\r' || c = '\x0b' || c = '\x0c'

/-- Python `s.strip()` on a character list. -/
def pyStrip (l : List Char) : List Char :=
  ((l.dropWhile pyIsSpace).reverse.dropWhile pyIsSpace).reverse

/-- Python `s.startswith(p)` on character lists. -/
def startsWithChars : List Char → List Char → Bool
  | [], _ => true
  | _ :: _, [] => false
  | c :: ps, x :: xs => c = x && startsWithChars ps xs

/-- Python `s.split(c)` for a one-character separator, on character lists. -/
def splitOnChar (c : Char) : List Char → List (List Char)
  | [] => [[]]
  | x :: xs =>
    match splitOnChar c xs with
    | [] => [[x]]
    | h :: t => if x = c then [] :: h :: t else (x :: h) :: t

/-- Everything after the first occurrence of `c`, or `none` when `c` is
absent; `(pyAfterFirst c l).getD l` is Python `s.split(c, 1)[-1]`. -/
def pyAfterFirst (c : Char) : List Char → Option (List Char)
  | [] => none
  | x :: xs => if x = c then some xs else pyAfterFirst c xs

namespace AgentRuntime

/-- runtime.py `AgentRuntime._extract_action_items`: line-oriented scan of the
response text.  A stripped line starting with the checkbox markers contributes
the trimmed text after the first closing bracket (Python `split("]", 1)[-1]`,
the whole line when it has no closing bracket), kept only when non-empty and
not itself starting with an opening bracket. -/
def extract_action_items (content : String) : List ActionItem :=
  (splitOnChar (Char.ofNat 10) content.data).foldl
    (fun acc rawLine =>
      let line := pyStrip rawLine
      if startsWithChars ['-', ' ', '['] line
          || startsWithChars ['*', ' ', '['] line then
        let desc := pyStrip ((pyAfterFirst ']' line).getD line)
        if !desc.isEmpty && !startsWithChars ['['] desc then
          acc ++ [{ description := String.mk desc }]
        else acc
      else acc)
    []

/-- runtime.py `AgentRuntime._prepare_messages`: system prompt, then one user
message rendering the recent conversation (when any), then the instruction. -/
def prepare_messages (agent : Agent) (job : AgentJob) : List ChatMessage :=
  let contextParts := job.context.recent_messages.map
    (fun m => (m.role.getD "user") ++ ": " ++ (m.content.getD ""))
  [{ role := MessageRole.system, content := agent.system_prompt }]
    ++ (if contextParts.isEmpty then []
        else [{ role := MessageRole.user,
                content := "Recent conversation:\n"
                  ++ String.intercalate "\n" contextParts }])
    ++ [{ role := MessageRole.user, content := job.instruction }]

/-- engine.py `ToolEngine.get_tool_definitions`: resolve the allowed tool ids
to their definitions, silently skipping ids that do not resolve. -/
def get_tool_definitions (registry : List (String × ToolImpl))
    (tool_ids : List String) : List ToolDefinition :=
  tool_ids.foldl
    (fun acc tool_id =>
      match dictGet registry tool_id with
      | some tool => acc ++ [tool.definition]
      | none => acc)
    []

/-- The arguments `execute_job` passes to the backend `chat` call: prepared
messages, the reduced tool definitions (`None` when the list is empty), and
the agent's generation parameters.  The job's `timeout_seconds` is not among
them. -/
structure ChatArgs where
  messages : List ChatMessage
  tools : Option (List LLMToolDefinition)
  temperature : Rat
  max_tokens : Nat

/-- runtime.py `AgentRuntime.execute_job` lines 123-146: assembly of the
backend call's arguments. -/
def chat_args (registry : List (String × ToolImpl)) (agent : Agent)
    (job : AgentJob) : ChatArgs :=
  let tool_definitions := get_tool_definitions registry job.tools_allowed
  let llm_tools := tool_definitions.map
    (fun td => { name := td.name, description := td.description,
                 input_schema := td.input_schema : LLMToolDefinition })
  { messages := prepare_messages agent job,
    tools := if llm_tools.isEmpty then none else some llm_tools,
    temperature := agent.config.temperature,
    max_tokens := agent.config.max_tokens }

/-- The external text-generation backend: a function of the arguments the
orchestrator passes it, returning a response or raising. -/
abbrev Backend := ChatArgs → Except String ChatResponse

/-- runtime.py `AgentRuntime._handle_tool_calls`: the context dict built for a
tool call requested by the backend — exactly the keys `call_id`, `job_id`,
`agent_id`, `chat_id`; no `user_id` key. -/
def tool_context (job : AgentJob) (tc : ToolCall) : Ctx :=
  { call_id := some tc.id,
    job_id := some job.job_id,
    agent_id := some job.agent_id,
    chat_id := some job.context.chat_id }

/-- runtime.py `AgentRuntime._handle_tool_calls` loop: execute each requested
call through the gate in order, threading the rate counters; a fault raised by
`execute_tool` aborts the loop and propagates (to `execute_job`'s `except`). -/
def handle_tool_calls (registry : List (String × ToolImpl))
    (counters : RateCounters) (job : AgentJob) (calls : List ToolCall)
    (now : Int) : Except String Unit × RateCounters :=
  match calls with
  | [] => (Except.ok (), counters)
  | tc :: rest =>
    match ToolEngine.execute_tool registry counters tc.name tc.parameters
        (tool_context job tc) now with
    | (Except.error e, counters1) => (Except.error e, counters1)
    | (Except.ok _, counters1) => handle_tool_calls registry counters1 job rest now

/-- runtime.py `AgentRuntime._process_response`: build the COMPLETED result
from the backend response. -/
def process_response (agent : Agent) (job : AgentJob) (response : ChatResponse)
    (now : Int) : AgentResult :=
  { job_id := job.job_id,
    agent_id := agent.id,
    status := JobStatus.completed,
    response := response.content,
    citations := [],
    action_items := extract_action_items response.content,
    input_tokens := response.usage.input_tokens,
    output_tokens := response.usage.output_tokens,
    started_at := job.started_at,
    completed_at := some now }

/-- Program counter of the single in-flight `execute_job` task: before the
tracking step, suspended at the backend call, or returned. -/
inductive TaskPhase where
  | notStarted
  | awaitingBackend
  | finished
deriving DecidableEq

/-- The runtime state relevant to one job object: the agent registry, the tool
registry and rate counters of the runtime's engine, the job object itself
(mutated in place by the orchestrator and by cancellation), whether the
active-jobs ledger currently holds an entry for this job id (dict operations
keyed on other job ids never touch this object), and the task phase. -/
structure RtState where
  agents : List (String × Agent)
  registry : List (String × ToolImpl)
  counters : RateCounters
  job : AgentJob
  tracked : Bool
  phase : TaskPhase

/-- runtime.py `AgentRuntime.execute_job` lines 113-119: insert the job in the
ledger, transition it to RUNNING and stamp `started_at`. -/
def track_and_start (s : RtState) (now : Int) : RtState :=
  { s with
    tracked := true
    phase := TaskPhase.awaitingBackend
    job := { s.job with
             status := JobStatus.running
             started_at := some now } }

/-- runtime.py `AgentRuntime.execute_job` lines 121-175: the continuation after
the backend call returns or raises.  On a response: run the requested tool
calls (a fault raised there is caught by the `except`), build the result,
unconditionally set the job COMPLETED and stamp `completed_at`.  On a raise:
set the job FAILED, stamp `completed_at`, and return a FAILED result carrying
the error string.  Either way the `finally` removes the job id from the
ledger. -/
def resume_after_backend (s : RtState) (agent : Agent) (backend : Backend)
    (now : Int) : AgentResult × RtState :=
  match backend (chat_args s.registry agent s.job) with
  | Except.error e =>
    ({ job_id := s.job.job_id, agent_id := s.job.agent_id,
       status := JobStatus.failed, error := some e },
     { s with
       phase := TaskPhase.finished
       tracked := false
       job := { s.job with
                status := JobStatus.failed
                completed_at := some now } })
  | Except.ok response =>
    let toolStep :=
      if pyTruthyList response.tool_calls then
        handle_tool_calls s.registry s.counters s.job
          (response.tool_calls.getD []) now
      else (Except.ok (), s.counters)
    match toolStep with
    | (Except.error e, counters1) =>
      ({ job_id := s.job.job_id, agent_id := s.job.agent_id,
         status := JobStatus.failed, error := some e },
       { s with
         counters := counters1
         phase := TaskPhase.finished
         tracked := false
         job := { s.job with
                  status := JobStatus.failed
                  completed_at := some now } })
    | (Except.ok _, counters1) =>
      (process_response agent s.job response now,
       { s with
         counters := counters1
         phase := TaskPhase.finished
         tracked := false
         job := { s.job with
                  status := JobStatus.completed
                  completed_at := some now } })

/-- runtime.py `AgentRuntime.execute_job`, run without interleaving: resolve
the agent (absent → immediate FAILED result, nothing mutated, never tracked),
else track and start, call the backend, and run the continuation. -/
def execute_job (s : RtState) (backend : Backend) (tStart tEnd : Int) :
    AgentResult × RtState :=
  match dictGet s.agents s.job.agent_id with
  | none =>
    ({ job_id := s.job.job_id, agent_id := s.job.agent_id,
       status := JobStatus.failed,
       error := some ("Agent not found: " ++ s.job.agent_id) }, s)
  | some agent =>
    resume_after_backend (track_and_start s tStart) agent backend tEnd

/-- runtime.py `AgentRuntime.cancel_job`: under the job lock, if the ledger
holds an entry for `job_id` and its status is RUNNING, set it CANCELLED, stamp
`completed_at`, remove the entry and return true; otherwise return false. -/
def cancel_job (s : RtState) (job_id : String) (now : Int) : Bool × RtState :=
  if s.tracked = true ∧ job_id = s.job.job_id
      ∧ s.job.status = JobStatus.running then
    (true,
     { s with
       tracked := false
       job := { s.job with
                status := JobStatus.cancelled
                completed_at := some now } })
  else (false, s)

/-- The terminal job statuses. -/
def terminal (st : JobStatus) : Bool :=
  match st with
  | JobStatus.completed => true
  | JobStatus.failed => true
  | JobStatus.cancelled => true
  | _ => false

/-- One atomic step of the runtime acting on the job object: the pieces of
`execute_job` around its suspension point (the awaited backend call), and a
concurrent `cancel_job` request, which `asyncio` may interleave at that
suspension point. -/
inductive RuntimeStep : RtState → RtState → Prop where
  | submit_absent (s : RtState)
      (h : dictGet s.agents s.job.agent_id = none)
      (hp : s.phase = TaskPhase.notStarted) :
      RuntimeStep s { s with phase := TaskPhase.finished }
  | submit (s : RtState) (agent : Agent) (t : Int)
      (h : dictGet s.agents s.job.agent_id = some agent)
      (hp : s.phase = TaskPhase.notStarted) :
      RuntimeStep s (track_and_start s t)
  | backend_return (s : RtState) (agent : Agent) (backend : Backend) (t : Int)
      (h : dictGet s.agents s.job.agent_id = some agent)
      (hp : s.phase = TaskPhase.awaitingBackend) :
      RuntimeStep s (resume_after_backend s agent backend t).2
  | cancel (s : RtState) (job_id : String) (t : Int) :
      RuntimeStep s (cancel_job s job_id t).2

end AgentRuntime

/-! ### Spec-side comparison definitions and concrete sample inputs -/

/-- The rolling-window policy exactly as the claim words it: discard recorded
timestamps strictly older than `now - window` (a timestamp exactly at the
boundary is kept), allow and record `now` when the remaining count is below
the limit, otherwise deny; no configured limit allows without recording. -/
def claim_rate_policy (counters : RateCounters) (d : ToolDefinition)
    (now : Int) : Bool × RateCounters :=
  match d.rate_limit with
  | none => (true, counters)
  | some limit =>
    let kept := ((dictGet counters d.id).getD []).filter
      (fun ts => now - d.rate_window ≤ ts)
    if kept.length < limit then (true, dictSet counters d.id (kept ++ [now]))
    else (false, dictSet counters d.id kept)

/-- The rolling-window policy with the boundary amended to what the code does:
timestamps at least `window` old (`ts ≤ now - window`) are discarded. -/
def amended_rate_policy (counters : RateCounters) (d : ToolDefinition)
    (now : Int) : Bool × RateCounters :=
  match d.rate_limit with
  | none => (true, counters)
  | some limit =>
    let kept := ((dictGet counters d.id).getD []).filter
      (fun ts => now - d.rate_window < ts)
    if kept.length < limit then (true, dictSet counters d.id (kept ++ [now]))
    else (false, dictSet counters d.id kept)

/-- The follow-up extraction rule exactly as the claim words it: every
stripped line beginning with a checkbox marker contributes one item whose
description is the trimmed text after the first closing bracket, provided
that text does not itself start with an opening bracket (the claim states no
non-emptiness proviso). -/
def claim_extract_rule (content : String) : List ActionItem :=
  (splitOnChar (Char.ofNat 10) content.data).filterMap
    (fun rawLine =>
      let line := pyStrip rawLine
      if startsWithChars ['-', ' ', '['] line
          || startsWithChars ['*', ' ', '['] line then
        let desc := pyStrip ((pyAfterFirst ']' line).getD line)
        if !startsWithChars ['['] desc then
          some { description := String.mk desc }
        else none
      else none)

/-- The amended per-line rule: a stripped line beginning with a checkbox
marker contributes the trimmed text after the first closing bracket (the
whole stripped line when it has no closing bracket), kept only when it is
non-empty (Python `if desc` discards the empty description) and does not
start with an opening bracket. -/
def checkbox_item_of_line (rawLine : List Char) : Option ActionItem :=
  let line := pyStrip rawLine
  if startsWithChars ['-', ' ', '['] line
      || startsWithChars ['*', ' ', '['] line then
    let desc := pyStrip ((pyAfterFirst ']' line).getD line)
    if !desc.isEmpty && !startsWithChars ['['] desc then
      some { description := String.mk desc }
    else none
  else none

/-- The extraction rule with the amendment, as a line-wise filter-map. -/
def amended_extract_rule (content : String) : List ActionItem :=
  (splitOnChar (Char.ofNat 10) content.data).filterMap checkbox_item_of_line

/-- A well-behaved sample tool: accepts any parameters, dispatch succeeds. -/
def goodTool : ToolImpl :=
  { definition := { id := "good", name := "Good" }
    validate_parameters := fun _ => Except.ok true
    execute := fun _ context => Except.ok
      { tool_id := "good", call_id := context.call_id.getD "",
        status := ToolStatus.completed, output := some "ok",
        started_at := 0, completed_at := 0 } }

/-- A sample tool whose own `validate_parameters` raises. -/
def badValidateTool : ToolImpl :=
  { definition := { id := "bad", name := "Bad" }
    validate_parameters := fun _ => Except.error "boom"
    execute := fun _ _ => Except.error "never reached" }

/-- A sample tool that requires auth and has an exhaustible rate limit. -/
def authTool : ToolImpl :=
  { definition :=
      { id := "auth", name := "Auth", requires_auth := true,
        rate_limit := some 1, rate_window := 60 }
    validate_parameters := fun _ => Except.ok true
    execute := fun _ _ => Except.ok
      { tool_id := "auth", call_id := "", status := ToolStatus.completed,
        started_at := 0, completed_at := 0 } }

/-- A sample tool with limit 2 per 60-second window (the claim's scenario). -/
def rateTool : ToolImpl :=
  { definition :=
      { id := "rt", name := "Rate", rate_limit := some 2, rate_window := 60 }
    validate_parameters := fun _ => Except.ok true
    execute := fun _ _ => Except.ok
      { tool_id := "rt", call_id := "", status := ToolStatus.completed,
        started_at := 0, completed_at := 0 } }

/-- A sample tool with limit 1 per 60-second window (boundary counterexample). -/
def boundTool : ToolImpl :=
  { definition :=
      { id := "bt", name := "Bound", rate_limit := some 1, rate_window := 60 }
    validate_parameters := fun _ => Except.ok true
    execute := fun _ _ => Except.ok
      { tool_id := "bt", call_id := "", status := ToolStatus.completed,
        started_at := 0, completed_at := 0 } }

/-- A sample agent registered under id "a". -/
def agentA : Agent := { id := "a", name := "A", system_prompt := "You are A" }

/-- A sample job targeting the registered agent "a". -/
def jobJ : AgentJob :=
  { job_id := "j", agent_id := "a", instruction := "do the thing",
    context := { chat_id := "chat1" } }

/-- A sample job targeting an unregistered agent id. -/
def jobGhost : AgentJob :=
  { job_id := "g", agent_id := "ghost", instruction := "do",
    context := { chat_id := "chat1" } }

/-- A plain-text backend response with no tool calls. -/
def respPlain : ChatResponse := { content := "All good" }

/-- Sample runtime state: agent "a" registered, job `jobJ` not yet submitted. -/
def state0 : AgentRuntime.RtState :=
  { agents := [("a", agentA)], registry := [], counters := [],
    job := jobJ, tracked := false, phase := AgentRuntime.TaskPhase.notStarted }

/-- Sample runtime state for the unresolvable job `jobGhost`. -/
def stateGhost : AgentRuntime.RtState :=
  { agents := [("a", agentA)], registry := [], counters := [],
    job := jobGhost, tracked := false,
    phase := AgentRuntime.TaskPhase.notStarted }

/-- The state `state0` after the tracking step of `execute_job` (suspended at the
backend call). -/
def state1 : AgentRuntime.RtState := AgentRuntime.track_and_start state0 0

/-- The state `state1` after a concurrent successful `cancel_job` interleaved at the
suspension point: the job is CANCELLED and untracked, the continuation of
`execute_job` is still pending. -/
def state2 : AgentRuntime.RtState := (AgentRuntime.cancel_job state1 "j" 1).2

/-- The state `state2` after the pending `execute_job` continuation runs with a
successful backend response. -/
def state3 : AgentRuntime.RtState :=
  (AgentRuntime.resume_after_backend state2 agentA
    (fun _ => Except.ok respPlain) 2).2

/-- The state `s` with the job's `timeout_seconds` field replaced. -/
def withTimeout (s : AgentRuntime.RtState) (n : Int) : AgentRuntime.RtState :=
  { s with job := { s.job with timeout_seconds := n } }

/-- A sample backend-requested tool call naming the auth-requiring tool. -/
def callC1 : ToolCall := { id := "c1", name := "auth", parameters := [("k", "v")] }

/-! ### Shared helper lemmas -/

theorem execute_tool_unauthorized_of_no_user
    (registry : List (String × ToolImpl)) (counters : RateCounters)
    (tool_id : String) (parameters : Params) (context : Ctx) (now : Int)
    (tool : ToolImpl) (hget : dictGet registry tool_id = some tool)
    (hauth : tool.definition.requires_auth = true)
    (huser : pyTruthyStr context.user_id = false) :
    ToolEngine.execute_tool registry counters tool_id parameters context now
      = (Except.ok
          { tool_id := tool_id, call_id := context.call_id.getD "",
            status := ToolStatus.unauthorized,
            error := some "Permission denied for tool execution",
            started_at := now, completed_at := now }, counters) := by
  have hperm : ToolEngine.check_permissions tool context = false := by
    unfold ToolEngine.check_permissions
    rw [hauth, huser]
    simp
  simp [ToolEngine.execute_tool, hget, hperm]

theorem execute_tool_ok_of_validate_ok
    (registry : List (String × ToolImpl)) (counters : RateCounters)
    (tool_id : String) (parameters : Params) (context : Ctx) (now : Int)
    (tool : ToolImpl) (b : Bool) (hget : dictGet registry tool_id = some tool)
    (hval : tool.validate_parameters parameters = Except.ok b) :
    ∃ r, (ToolEngine.execute_tool registry counters tool_id parameters context
            now).1 = Except.ok r := by
  by_cases hperm : ToolEngine.check_permissions tool context
  · rcases hrate : ToolEngine.check_rate_limit counters tool now with ⟨allowed, c1⟩
    cases allowed
    · simp [ToolEngine.execute_tool, hget, hperm, hrate]
    · cases b
      · simp [ToolEngine.execute_tool, hget, hperm, hrate, hval]
      · cases hex : tool.execute parameters context
        · simp [ToolEngine.execute_tool, hget, hperm, hrate, hval, hex]
        · simp [ToolEngine.execute_tool, hget, hperm, hrate, hval, hex]
  · simp only [Bool.not_eq_true] at hperm
    simp [ToolEngine.execute_tool, hget, hperm]

/-- C1.
Claim as stated: `execute_tool` never propagates a raised fault, whatever
error arises during any of its checks or during dispatch.  Refuted at a
concrete input: a tool whose own `validate_parameters` raises is outside the
engine's `try` block, so the fault escapes `execute_tool` uncaught. -/
theorem execute_tool_validate_fault_escapes :
    (ToolEngine.execute_tool [("bad", badValidateTool)] [] "bad" [] {} 0).1
      = Except.error "boom" := rfl

/-- C1 (amended): `execute_tool` returns a structured `ToolExecutionResult`
for an unknown tool id, for every check failure, and for any fault raised
during dispatch of the tool's `execute`; the one uncovered path is a fault
raised by the tool's own `validate_parameters`.  Hence whenever the resolved
tool's parameter check returns normally (and always when the id does not
resolve), no fault escapes. -/
theorem execute_tool_structured_outcome :
    (∀ registry counters tool_id parameters context now,
        dictGet (α := ToolImpl) registry tool_id = none →
        ∃ r, (ToolEngine.execute_tool registry counters tool_id parameters
                context now).1 = Except.ok r)
    ∧ (∀ registry counters tool_id parameters context now tool b,
        dictGet registry tool_id = some tool →
        tool.validate_parameters parameters = Except.ok b →
        ∃ r, (ToolEngine.execute_tool registry counters tool_id parameters
                context now).1 = Except.ok r) := by
  constructor
  · intro registry counters tool_id parameters context now h
    simp [ToolEngine.execute_tool, h]
  · intro registry counters tool_id parameters context now tool b hget hval
    exact execute_tool_ok_of_validate_ok registry counters tool_id parameters
      context now tool b hget hval

/-- Witness for C1 (amended), at concrete inputs discharging each hypothesis. -/
theorem execute_tool_structured_outcome_witness :
    (∃ r, (ToolEngine.execute_tool [("good", goodTool)] [] "missing" [] {} 0).1
            = Except.ok r)
    ∧ ∃ r, (ToolEngine.execute_tool [("good", goodTool)] [] "good" [] {} 0).1
            = Except.ok r :=
  ⟨execute_tool_structured_outcome.1 [("good", goodTool)] [] "missing" [] {} 0
      rfl,
   execute_tool_structured_outcome.2 [("good", goodTool)] [] "good" [] {} 0
      goodTool true rfl rfl⟩

/-- C2: the gate's checks run in the order existence, authorization, rate
limit, parameter validation, dispatch, first failure winning: a resolved tool
requiring auth, invoked without a caller identity, yields UNAUTHORIZED for
every rate-counter state — including an exhausted one — and the rate counters
are not consulted or updated. -/
theorem execute_tool_auth_before_rate
    (registry : List (String × ToolImpl)) (counters : RateCounters)
    (tool_id : String) (parameters : Params) (context : Ctx) (now : Int)
    (tool : ToolImpl) (hget : dictGet registry tool_id = some tool)
    (hauth : tool.definition.requires_auth = true)
    (huser : pyTruthyStr context.user_id = false) :
    ToolEngine.execute_tool registry counters tool_id parameters context now
      = (Except.ok
          { tool_id := tool_id, call_id := context.call_id.getD "",
            status := ToolStatus.unauthorized,
            error := some "Permission denied for tool execution",
            started_at := now, completed_at := now }, counters) :=
  execute_tool_unauthorized_of_no_user registry counters tool_id parameters
    context now tool hget hauth huser

/-- Witness for C2: a tool requiring auth whose limit-1 rate window is
already exhausted, called with no caller identity, is UNAUTHORIZED (and the
rate limiter would indeed have denied the same call). -/
theorem execute_tool_auth_before_rate_witness :
    (ToolEngine.check_rate_limit [("auth", [0])] authTool 0).1 = false
    ∧ ToolEngine.execute_tool [("auth", authTool)] [("auth", [0])] "auth" []
        {} 0
      = (Except.ok
          { tool_id := "auth", call_id := "",
            status := ToolStatus.unauthorized,
            error := some "Permission denied for tool execution",
            started_at := 0, completed_at := 0 }, [("auth", [0])]) :=
  ⟨by decide,
   execute_tool_auth_before_rate [("auth", authTool)] [("auth", [0])] "auth"
     [] {} 0 authTool rfl rfl rfl⟩

/-- C10: the context the orchestrator builds for a backend-requested tool
call consists exactly of `call_id`, `job_id`, `agent_id` and `chat_id` —
never a `user_id` — so every resolved tool whose definition requires auth
yields UNAUTHORIZED when invoked from `execute_job`, whatever the
parameters. -/
theorem runtime_tool_calls_unauthorized
    (job : AgentJob) (tc : ToolCall) (registry : List (String × ToolImpl))
    (counters : RateCounters) (now : Int) (tool : ToolImpl)
    (hget : dictGet registry tc.name = some tool)
    (hauth : tool.definition.requires_auth = true) :
    (AgentRuntime.tool_context job tc).user_id = none
    ∧ ToolEngine.execute_tool registry counters tc.name tc.parameters
        (AgentRuntime.tool_context job tc) now
      = (Except.ok
          { tool_id := tc.name, call_id := tc.id,
            status := ToolStatus.unauthorized,
            error := some "Permission denied for tool execution",
            started_at := now, completed_at := now }, counters) :=
  ⟨rfl,
   execute_tool_unauthorized_of_no_user registry counters tc.name
     tc.parameters (AgentRuntime.tool_context job tc) now tool hget hauth rfl⟩

/-- Witness for C10 at a concrete job and requested call. -/
theorem runtime_tool_calls_unauthorized_witness :
    (AgentRuntime.tool_context jobJ callC1).user_id = none
    ∧ ToolEngine.execute_tool [("auth", authTool)] [] "auth" [("k", "v")]
        (AgentRuntime.tool_context jobJ callC1) 0
      = (Except.ok
          { tool_id := "auth", call_id := "c1",
            status := ToolStatus.unauthorized,
            error := some "Permission denied for tool execution",
            started_at := 0, completed_at := 0 }, []) :=
  runtime_tool_calls_unauthorized jobJ callC1
    [("auth", authTool)] [] 0 authTool rfl rfl

/-- C6.
Claim as stated: the check discards timestamps strictly older than
`now - window`.  Refuted at the boundary: with limit 1, window 60 and one
call recorded at time 0, a call at time 60 is allowed by the code (the source
keeps only timestamps strictly inside the window), while the claim's policy
keeps the boundary timestamp and denies. -/
theorem check_rate_limit_boundary :
    (ToolEngine.check_rate_limit [("bt", [0])] boundTool 60).1 = true
    ∧ (claim_rate_policy [("bt", [0])] boundTool.definition 60).1 = false := by
  decide

/-- C6 (amended): the check implements the rolling-window policy with
timestamps at least `window` old discarded (strictly-inside-the-window kept):
it equals the amended policy on every input — in particular no configured
limit always allows without recording — and the claim's concrete scenario
holds: with limit 2 and window 60s, three immediate calls yield true, true,
false, and a fourth call after the window has elapsed yields true. -/
theorem check_rate_limit_rolling_window :
    (∀ counters tool now, ToolEngine.check_rate_limit counters tool now
        = amended_rate_policy counters tool.definition now)
    ∧ (ToolEngine.check_rate_limit [] rateTool 0).1 = true
    ∧ (ToolEngine.check_rate_limit
        (ToolEngine.check_rate_limit [] rateTool 0).2 rateTool 0).1 = true
    ∧ (ToolEngine.check_rate_limit (ToolEngine.check_rate_limit
        (ToolEngine.check_rate_limit [] rateTool 0).2 rateTool 0).2
        rateTool 0).1 = false
    ∧ (ToolEngine.check_rate_limit ((ToolEngine.check_rate_limit
        (ToolEngine.check_rate_limit (ToolEngine.check_rate_limit [] rateTool
          0).2 rateTool 0).2 rateTool 0).2) rateTool 61).1 = true := by
  refine ⟨?_, by decide, by decide, by decide, by decide⟩
  intro counters tool now
  unfold ToolEngine.check_rate_limit amended_rate_policy
  cases h : tool.definition.rate_limit with
  | none => rfl
  | some limit =>
    by_cases hc : limit ≤ (((dictGet counters tool.definition.id).getD
        []).filter (fun ts => now - tool.definition.rate_window < ts)).length
    · simp [hc, Nat.not_lt.mpr hc]
    · simp [hc, Nat.lt_of_not_le hc]

/-- The continuation of `execute_job` after the backend call always leaves the
job untracked, stamps `completed_at` with its own clock, and sets the status
to COMPLETED or FAILED — regardless of the status it found. -/
theorem resume_after_backend_shape (s : AgentRuntime.RtState) (agent : Agent)
    (backend : AgentRuntime.Backend) (t : Int) :
    ((AgentRuntime.resume_after_backend s agent backend t).2.job.status
        = JobStatus.completed
      ∨ (AgentRuntime.resume_after_backend s agent backend t).2.job.status
        = JobStatus.failed)
    ∧ (AgentRuntime.resume_after_backend s agent backend t).2.job.completed_at
        = some t
    ∧ (AgentRuntime.resume_after_backend s agent backend t).2.tracked
        = false := by
  unfold AgentRuntime.resume_after_backend
  cases hb : backend (AgentRuntime.chat_args s.registry agent s.job) with
  | error e => exact ⟨Or.inr rfl, rfl, rfl⟩
  | ok response =>
    rcases ht : (if pyTruthyList response.tool_calls then
        AgentRuntime.handle_tool_calls s.registry s.counters s.job
          (response.tool_calls.getD []) t
      else (Except.ok (), s.counters)) with ⟨res, c1⟩
    cases res with
    | error e => simp [ht]
    | ok u => simp [ht]

/-- C3: a job whose target agent id does not resolve gets an immediate FAILED
result whose error carries the agent id, and the runtime state — the
active-jobs ledger included — is returned unchanged. -/
theorem execute_job_agent_absent (s : AgentRuntime.RtState)
    (backend : AgentRuntime.Backend) (tStart tEnd : Int)
    (h : dictGet s.agents s.job.agent_id = none) :
    AgentRuntime.execute_job s backend tStart tEnd
      = ({ job_id := s.job.job_id, agent_id := s.job.agent_id,
           status := JobStatus.failed,
           error := some ("Agent not found: " ++ s.job.agent_id) }, s) := by
  simp [AgentRuntime.execute_job, h]

/-- Witness for C3 at the concrete unresolvable job. -/
theorem execute_job_agent_absent_witness :
    AgentRuntime.execute_job stateGhost (fun _ => Except.ok respPlain) 0 1
      = ({ job_id := "g", agent_id := "ghost", status := JobStatus.failed,
           error := some "Agent not found: ghost" }, stateGhost) :=
  execute_job_agent_absent stateGhost (fun _ => Except.ok respPlain) 0 1 rfl

/-- C8: whenever the target agent resolves (the only case in which the job
enters the ledger), `execute_job` leaves the ledger with no entry for the job
id on every exit path — success, failure and error alike (the backend and the
registered tools are arbitrary here, covering all three). -/
theorem execute_job_untracks (s : AgentRuntime.RtState)
    (backend : AgentRuntime.Backend) (tStart tEnd : Int) (agent : Agent)
    (h : dictGet s.agents s.job.agent_id = some agent) :
    ((AgentRuntime.execute_job s backend tStart tEnd).2).tracked = false := by
  simp only [AgentRuntime.execute_job, h]
  exact (resume_after_backend_shape _ agent backend tEnd).2.2

/-- Witness for C8 at a concrete successful run. -/
theorem execute_job_untracks_witness :
    ((AgentRuntime.execute_job state0 (fun _ => Except.ok respPlain)
        0 1).2).tracked = false :=
  execute_job_untracks state0 (fun _ => Except.ok respPlain) 0 1 agentA rfl

/-- C4: `cancel_job` returns true exactly when the ledger holds an entry for
the id and that job's status is RUNNING; on success it sets CANCELLED, stamps
`completed_at` and removes the entry, so an immediately repeated cancel
returns false, and any cancel after `execute_job` has returned (natural
completion) returns false. -/
theorem cancel_job_cas (s : AgentRuntime.RtState) (job_id : String) (t : Int) :
    ((AgentRuntime.cancel_job s job_id t).1 = true
      ↔ s.tracked = true ∧ job_id = s.job.job_id
          ∧ s.job.status = JobStatus.running)
    ∧ ((AgentRuntime.cancel_job s job_id t).1 = true →
        (AgentRuntime.cancel_job s job_id t).2.job.status
            = JobStatus.cancelled
        ∧ (AgentRuntime.cancel_job s job_id t).2.job.completed_at = some t
        ∧ (AgentRuntime.cancel_job s job_id t).2.tracked = false
        ∧ ∀ t2, (AgentRuntime.cancel_job
            (AgentRuntime.cancel_job s job_id t).2 job_id t2).1 = false)
    ∧ (∀ backend t1 t2 t3 agent,
        dictGet s.agents s.job.agent_id = some agent →
        (AgentRuntime.cancel_job
          ((AgentRuntime.execute_job s backend t1 t2).2) job_id t3).1
          = false) := by
  refine ⟨?_, ?_, ?_⟩
  · unfold AgentRuntime.cancel_job
    by_cases hcond : s.tracked = true ∧ job_id = s.job.job_id
        ∧ s.job.status = JobStatus.running
    · simp [hcond]
    · simp [hcond]
  · intro htrue
    unfold AgentRuntime.cancel_job at htrue ⊢
    by_cases hcond : s.tracked = true ∧ job_id = s.job.job_id
        ∧ s.job.status = JobStatus.running
    · simp [hcond, AgentRuntime.cancel_job]
    · simp [hcond] at htrue
  · intro backend t1 t2 t3 agent h
    have htr : ((AgentRuntime.execute_job s backend t1 t2).2).tracked
        = false := by
      simp only [AgentRuntime.execute_job, h]
      exact (resume_after_backend_shape _ agent backend t2).2.2
    unfold AgentRuntime.cancel_job
    rw [if_neg]
    intro hc
    rw [htr] at hc
    exact Bool.false_ne_true hc.1

/-- Witness for C4: a tracked RUNNING job cancels exactly once. -/
theorem cancel_job_cas_witness :
    ((AgentRuntime.cancel_job state1 "j" 1).1 = true)
    ∧ (AgentRuntime.cancel_job state1 "j" 1).2.job.status
        = JobStatus.cancelled
    ∧ (∀ t2, (AgentRuntime.cancel_job
        (AgentRuntime.cancel_job state1 "j" 1).2 "j" t2).1 = false)
    ∧ (AgentRuntime.cancel_job
        ((AgentRuntime.execute_job state0 (fun _ => Except.ok respPlain)
          0 1).2) "j" 5).1 = false :=
  ⟨((cancel_job_cas state1 "j" 1).1).mpr ⟨rfl, rfl, rfl⟩,
   ((cancel_job_cas state1 "j" 1).2.1
      (((cancel_job_cas state1 "j" 1).1).mpr ⟨rfl, rfl, rfl⟩)).1,
   ((cancel_job_cas state1 "j" 1).2.1
      (((cancel_job_cas state1 "j" 1).1).mpr ⟨rfl, rfl, rfl⟩)).2.2.2,
   (cancel_job_cas state0 "j" 1).2.2 (fun _ => Except.ok respPlain) 0 1 5
     agentA rfl⟩

/-- C5.
Claim as stated: no step of the runtime moves a job out of a terminal status.
Refuted on a concrete interleaving: start `jobJ` (`state1`), cancel it at the
backend suspension point (`state2`, status CANCELLED — terminal), then let
the pending `execute_job` continuation run (`state3`): the continuation
unconditionally sets status COMPLETED, a transition out of CANCELLED (and it
re-stamps `completed_at`). -/
theorem terminal_status_not_preserved :
    ¬ (∀ s1 s2, AgentRuntime.RuntimeStep s1 s2 →
        AgentRuntime.terminal s1.job.status = true →
        s2.job.status = s1.job.status) := by
  intro h
  have hstep : AgentRuntime.RuntimeStep state2 state3 :=
    AgentRuntime.RuntimeStep.backend_return state2 agentA
      (fun _ => Except.ok respPlain) 2 rfl rfl
  have heq := h state2 state3 hstep rfl
  exact absurd heq (by decide)

/-- C5 (amended): `cancel_job` never transitions a job out of a terminal
status (it acts only on RUNNING jobs, returning false and leaving the state
untouched otherwise); the exception to the claim is the continuation of
`execute_job` after the backend call, which unconditionally sets the status
to COMPLETED or FAILED and stamps `completed_at` with its own clock, even
when the job was concurrently cancelled. -/
theorem terminal_status_amended :
    (∀ (s : AgentRuntime.RtState) (job_id : String) (t : Int),
        AgentRuntime.terminal s.job.status = true →
        AgentRuntime.cancel_job s job_id t = (false, s))
    ∧ (∀ (s : AgentRuntime.RtState) (agent : Agent)
        (backend : AgentRuntime.Backend) (t : Int),
        ((AgentRuntime.resume_after_backend s agent backend t).2.job.status
            = JobStatus.completed
          ∨ (AgentRuntime.resume_after_backend s agent backend t).2.job.status
            = JobStatus.failed)
        ∧ (AgentRuntime.resume_after_backend s agent backend
            t).2.job.completed_at = some t) := by
  constructor
  · intro s job_id t h
    have hne : s.job.status ≠ JobStatus.running := by
      intro he
      rw [he] at h
      simp [AgentRuntime.terminal] at h
    unfold AgentRuntime.cancel_job
    rw [if_neg]
    intro hc
    exact hne hc.2.2
  · intro s agent backend t
    exact ⟨(resume_after_backend_shape s agent backend t).1,
      (resume_after_backend_shape s agent backend t).2.1⟩

/-- Witness for C5 (amended): cancelling the already-cancelled `state2` is a
no-op returning false, while the pending continuation still ends COMPLETED or
FAILED. -/
theorem terminal_status_amended_witness :
    AgentRuntime.cancel_job state2 "j" 5 = (false, state2)
    ∧ (state3.job.status = JobStatus.completed
        ∨ state3.job.status = JobStatus.failed) :=
  ⟨terminal_status_amended.1 state2 "j" 5 rfl,
   (terminal_status_amended.2 state2 agentA (fun _ => Except.ok respPlain)
      2).1⟩

/-- Folding an append-one-item-or-skip body is filtering-and-mapping. -/
theorem foldl_append_filterMap {α β : Type} (g : α → Option β) :
    ∀ (l : List α) (acc : List β),
      l.foldl (fun a x => a ++ (g x).toList) acc = acc ++ l.filterMap g := by
  intro l
  induction l with
  | nil => intro acc; simp
  | cons x xs ih =>
    intro acc
    cases hx : g x <;> simp [hx, ih]

/-- C7.
Claim as stated: every stripped line beginning with a checkbox marker
contributes exactly one item, provided the text after the first closing
bracket does not itself start with an opening bracket.  Refuted at the input
consisting of the single line beginning with the marker and ending directly
at the closing bracket: the remaining text is empty (and does not start with
an opening bracket), so the claim demands one item with an empty description,
but the code's `if desc` drops it and yields no items. -/
theorem extract_drops_empty_description :
    claim_extract_rule "- [x]" = [{ description := "" }]
    ∧ AgentRuntime.extract_action_items "- [x]" = [] := by
  constructor
  · rfl
  · rfl

/-- C7 (amended): extraction is the deterministic total line scan of the
claim with the non-emptiness proviso added (and with the whole stripped line
standing in for the text after the first closing bracket on lines that have
none, per Python split semantics); the claim's concrete example yields
exactly the two items. -/
theorem extract_action_items_rule :
    (∀ content, AgentRuntime.extract_action_items content
        = amended_extract_rule content)
    ∧ AgentRuntime.extract_action_items
        "- [ ] call Bob\nsome text\n* [x] ship it"
      = [{ description := "call Bob" }, { description := "ship it" }] := by
  refine ⟨?_, by decide⟩
  intro content
  unfold AgentRuntime.extract_action_items amended_extract_rule
  have hfun : (fun (acc : List ActionItem) (rawLine : List Char) =>
      let line := pyStrip rawLine
      if startsWithChars ['-', ' ', '['] line
          || startsWithChars ['*', ' ', '['] line then
        let desc := pyStrip ((pyAfterFirst ']' line).getD line)
        if !desc.isEmpty && !startsWithChars ['['] desc then
          acc ++ [{ description := String.mk desc }]
        else acc
      else acc)
      = (fun (a : List ActionItem) (rawLine : List Char) =>
        a ++ (checkbox_item_of_line rawLine).toList) := by
    funext a rawLine
    unfold checkbox_item_of_line
    by_cases h1 : (startsWithChars ['-', ' ', '['] (pyStrip rawLine)
        || startsWithChars ['*', ' ', '['] (pyStrip rawLine)) = true
    · by_cases h2 : (!(pyStrip ((pyAfterFirst ']'
          (pyStrip rawLine)).getD (pyStrip rawLine))).isEmpty
          && !startsWithChars ['['] (pyStrip ((pyAfterFirst ']'
            (pyStrip rawLine)).getD (pyStrip rawLine)))) = true
      · simp [h1, h2]
      · simp [h1, h2]
    · simp [h1]
  rw [hfun]
  exact (foldl_append_filterMap checkbox_item_of_line
    (splitOnChar (Char.ofNat 10) content.data) []).trans
    (List.nil_append _)

/-- The tool-call context does not involve the job's timeout budget. -/
theorem tool_context_timeout (j : AgentJob) (n : Int) (tc : ToolCall) :
    AgentRuntime.tool_context { j with timeout_seconds := n } tc
      = AgentRuntime.tool_context j tc := rfl

/-- The backend call's arguments do not involve the job's timeout budget. -/
theorem chat_args_timeout (registry : List (String × ToolImpl))
    (agent : Agent) (j : AgentJob) (n : Int) :
    AgentRuntime.chat_args registry agent { j with timeout_seconds := n }
      = AgentRuntime.chat_args registry agent j := rfl

/-- Result assembly does not involve the job's timeout budget. -/
theorem process_response_timeout (agent : Agent) (j : AgentJob) (n : Int)
    (response : ChatResponse) (t : Int) :
    AgentRuntime.process_response agent { j with timeout_seconds := n }
        response t
      = AgentRuntime.process_response agent j response t := rfl

/-- Tool-call handling does not involve the job's timeout budget. -/
theorem handle_tool_calls_timeout (registry : List (String × ToolImpl))
    (j : AgentJob) (n : Int) (calls : List ToolCall) (t : Int) :
    ∀ counters, AgentRuntime.handle_tool_calls registry counters
        { j with timeout_seconds := n } calls t
      = AgentRuntime.handle_tool_calls registry counters j calls t := by
  induction calls with
  | nil => intro counters; rfl
  | cons tc rest ih =>
    intro counters
    unfold AgentRuntime.handle_tool_calls
    rw [tool_context_timeout]
    rcases hx : ToolEngine.execute_tool registry counters tc.name
        tc.parameters (AgentRuntime.tool_context j tc) t with ⟨res, c1⟩
    cases res <;> simp [hx, ih]

/-- The tracking step commutes with replacing the timeout budget. -/
theorem track_and_start_timeout (s : AgentRuntime.RtState) (t n : Int) :
    AgentRuntime.track_and_start (withTimeout s n) t
      = withTimeout (AgentRuntime.track_and_start s t) n := rfl

/-- The continuation's result does not involve the job's timeout budget. -/
theorem resume_after_backend_timeout (s : AgentRuntime.RtState)
    (agent : Agent) (backend : AgentRuntime.Backend) (t n : Int) :
    (AgentRuntime.resume_after_backend (withTimeout s n) agent backend t).1
      = (AgentRuntime.resume_after_backend s agent backend t).1 := by
  unfold AgentRuntime.resume_after_backend withTimeout
  dsimp only
  rw [chat_args_timeout s.registry agent s.job n]
  cases hb : backend (AgentRuntime.chat_args s.registry agent s.job) with
  | error e => rfl
  | ok response =>
    dsimp only
    rw [handle_tool_calls_timeout s.registry s.job n
      (response.tool_calls.getD []) t s.counters]
    rcases ht : (if pyTruthyList response.tool_calls then
        AgentRuntime.handle_tool_calls s.registry s.counters s.job
          (response.tool_calls.getD []) t
      else (Except.ok (), s.counters)) with ⟨res, c1⟩
    cases res with
    | error e => simp [ht]
    | ok u => simp [ht, process_response_timeout]

/-- C9.
Claim as stated: the backend call is bounded by the job's `timeout_seconds`
budget.  Refuted by independence at concrete inputs: under a backend that
times out, a job with a 1-second budget and the same job with a 1000000-second
budget produce the identical outcome — `execute_job` never reads
`timeout_seconds`, so no per-job bound can be in effect. -/
theorem execute_job_timeout_budget_unused :
    (AgentRuntime.execute_job (withTimeout state0 1)
        (fun _ => Except.error "Request timed out") 0 1).1
      = (AgentRuntime.execute_job (withTimeout state0 1000000)
        (fun _ => Except.error "Request timed out") 0 1).1
    ∧ (AgentRuntime.execute_job (withTimeout state0 1)
        (fun _ => Except.error "Request timed out") 0 1).1
      = { job_id := "j", agent_id := "a", status := JobStatus.failed,
          error := some "Request timed out" } := by
  constructor
  · rfl
  · rfl

/-- C9 (amended): `execute_job` applies no per-job bound — its outcome is
independent of the job's `timeout_seconds` on every input (the backend is
bounded only by the LLM service's fixed construction-time timeout, outside
this core) — and a timeout surfacing as a backend error is caught and
converted into a FAILED outcome carrying the error string, not a distinct
status. -/
theorem execute_job_timeout_contract :
    (∀ (s : AgentRuntime.RtState) (backend : AgentRuntime.Backend)
        (t1 t2 n : Int),
        (AgentRuntime.execute_job (withTimeout s n) backend t1 t2).1
          = (AgentRuntime.execute_job s backend t1 t2).1)
    ∧ (∀ (s : AgentRuntime.RtState) (e : String) (t1 t2 : Int) (agent : Agent),
        dictGet s.agents s.job.agent_id = some agent →
        (AgentRuntime.execute_job s (fun _ => Except.error e) t1 t2).1
          = { job_id := s.job.job_id, agent_id := s.job.agent_id,
              status := JobStatus.failed, error := some e }) := by
  constructor
  · intro s backend t1 t2 n
    unfold AgentRuntime.execute_job
    have hag : (withTimeout s n).agents = s.agents := rfl
    have hid : (withTimeout s n).job.agent_id = s.job.agent_id := rfl
    rw [hag, hid]
    cases h : dictGet s.agents s.job.agent_id with
    | none => rfl
    | some agent =>
      dsimp only
      rw [track_and_start_timeout]
      exact resume_after_backend_timeout (AgentRuntime.track_and_start s t1)
        agent backend t2 n
  · intro s e t1 t2 agent h
    unfold AgentRuntime.execute_job
    rw [h]
    rfl

/-- Witness for C9 (amended) at concrete inputs. -/
theorem execute_job_timeout_contract_witness :
    (AgentRuntime.execute_job (withTimeout state0 1)
        (fun _ => Except.ok respPlain) 0 1).1
      = (AgentRuntime.execute_job state0 (fun _ => Except.ok respPlain) 0 1).1
    ∧ (AgentRuntime.execute_job state0
        (fun _ => Except.error "Request timed out") 0 1).1
      = { job_id := "j", agent_id := "a", status := JobStatus.failed,
          error := some "Request timed out" } :=
  ⟨execute_job_timeout_contract.1 state0 (fun _ => Except.ok respPlain) 0 1 1,
   execute_job_timeout_contract.2 state0 "Request timed out" 0 1 agentA rfl⟩
